import Mathlib

/-!
Verification of the function lifecycle of the Vajra serverless platform and
execution dispatch engine, embedded from `src/api-gateway/main.py` (the cloud
gateway) and `src/api-gateway/main_local.py` (the local gateway).

The embedding follows the source:
* `FunctionData` is the `function_data` dict built by `create_function`.
* The registry partition of a tenant is an association list from function name to
  record (`functions_memory_store[user_id]` / the Firestore collection
  `users/{user-id}/functions`, and `functions_store` in the local variant).
* Backend availability and per-operation backend failures (Firestore raising)
  are passed in as explicit booleans; per-invocation filesystem facts (does the
  unpacked bundle contain `main.py`, what does the subprocess do) are passed in
  as an explicit `Workspace` oracle.
-/

namespace Vajra

/-- A single-quote character, used to reproduce quoted error messages from the
source verbatim. -/
def sq : String := "\x27"

instance exceptDecEq {ε α : Type} [DecidableEq ε] [DecidableEq α] :
    DecidableEq (Except ε α) := fun
  | .error a, .error b =>
      if h : a = b then .isTrue (by rw [h])
      else .isFalse (by intro he; cases he; exact h rfl)
  | .error _, .ok _ => .isFalse (by intro h; cases h)
  | .ok _, .error _ => .isFalse (by intro h; cases h)
  | .ok a, .ok b =>
      if h : a = b then .isTrue (by rw [h])
      else .isFalse (by intro he; cases he; exact h rfl)

/-- Python `str.startswith`, written over the character list so that proofs can
evaluate it. -/
def strStartsWith (s pre : String) : Bool :=
  pre.data.isPrefixOf s.data

/-- The function metadata record: the `function_data` dict built in
`create_function` (main.py lines 295-313, main_local.py lines 118-135).
Timestamps are abstract ticks; `code_path` is `none` in the local variant,
which stores no artifact reference. -/
structure FunctionData where
  id : String
  name : String
  runtime : String
  handler : String
  memory : Nat
  timeout : Nat
  description : String
  environment : List (String × String)
  version : Nat
  status : String
  user_id : String
  code_path : Option String
  created_at : Nat
  updated_at : Nat
  invocation_count : Nat
  error_count : Nat
  deriving DecidableEq

/-- The registry partition of one tenant: function name to record. -/
abbrev Store := List (String × FunctionData)

/-- Name lookup in a partition (`functions_store[name]` /
`collection(...).document(name).get()`). -/
def lookupFn : Store → String → Option FunctionData
  | [], _ => none
  | (k, v) :: rest, n => if k = n then some v else lookupFn rest n

/-- Update the record stored under `n`, if present (a Firestore
`document(n).update(...)` or a dict item mutation). -/
def mapFn : Store → String → (FunctionData → FunctionData) → Store
  | [], _, _ => []
  | (k, v) :: rest, n, f => (k, if k = n then f v else v) :: mapFn rest n f

/-- `invocation_count += 1` on the record named `n`. -/
def bumpInvocation (s : Store) (n : String) : Store :=
  mapFn s n (fun fd => { fd with invocation_count := fd.invocation_count + 1 })

/-- `error_count += 1` on the record named `n`. -/
def bumpError (s : Store) (n : String) : Store :=
  mapFn s n (fun fd => { fd with error_count := fd.error_count + 1 })

/-- The supported runtime table `RUNTIMES` (identical in main.py lines 97-115
and main_local.py lines 34-52); only the keys matter to the lifecycle logic. -/
def RUNTIMES : List String :=
  ["python3.8", "python3.9", "python3.10", "python3.11", "python3.12",
   "nodejs16", "nodejs18", "nodejs20",
   "go1.19", "go1.20", "go1.21",
   "java11", "java17", "java21",
   "rust1.70", "dotnet6", "dotnet8"]

/-- `runtime in RUNTIMES`. -/
def supported_runtime (runtime : String) : Bool :=
  RUNTIMES.any (fun r => decide (r = runtime))

/-- `create_function` (main.py lines 264-346): reject unsupported runtimes with
HTTP 400, otherwise build the metadata record with `version = 1` and
`status = "deploying"` and answer `{function_id, name, status, version}`.
The uploaded bundle is stored under the `code_path` of the returned record.
The result carries the record plus the `version` and `status` response
fields. -/
def create_function (fid name runtime handler : String) (memory timeout : Nat)
    (description userId : String) (env : List (String × String)) (now : Nat) :
    Except (Nat × String) (FunctionData × Nat × String) :=
  if supported_runtime runtime = false then
    .error (400, "Unsupported runtime: " ++ runtime)
  else
    let fd : FunctionData := {
      id := fid, name := name, runtime := runtime, handler := handler,
      memory := memory, timeout := timeout, description := description,
      environment := env, version := 1, status := "deploying", user_id := userId,
      code_path := some ("gs://vajra-functions-f765d09f3196bb52/users/" ++ userId
        ++ "/" ++ name ++ "/v1/" ++ fid ++ ".zip"),
      created_at := now, updated_at := now, invocation_count := 0, error_count := 0 }
    .ok (fd, 1, "deploying")

/-- `deploy_function_runtime` (main.py lines 348-382), as the status the record
ends in once the background task returns.  `dbAvail`/`hasUserId` model the
`if not db or not user_id: return` guard; `upd1ok` is the update to
`building`, `upd2ok` the update to `deployed`, and `updFailOk` the update to
`failed` attempted inside the `except` handler.  `st` is the status of the record
when the task starts (always `deploying` in the source, which launches the task
right after creation). -/
def deploy_function_runtime (dbAvail hasUserId upd1ok upd2ok updFailOk : Bool)
    (st : String) : String :=
  if (dbAvail && hasUserId) = false then st
  else if upd1ok = false then (if updFailOk then "failed" else st)
  else if upd2ok = false then (if updFailOk then "failed" else "building")
  else "deployed"

/-- The sequence of status transitions `deploy_function_runtime` actually
writes to the registry, in order. -/
def deploy_transitions_cloud (dbAvail hasUserId upd1ok upd2ok updFailOk : Bool)
    (st : String) : List (String × String) :=
  if (dbAvail && hasUserId) = false then []
  else if upd1ok = false then (if updFailOk then [(st, "failed")] else [])
  else
    (st, "building") ::
      (if upd2ok then [("building", "deployed")]
       else if updFailOk then [("building", "failed")] else [])

/-- `create_function` of the local gateway (main_local.py lines 87-152): same
validation plus a duplicate-name check; the record is stored in the in-memory
`functions_store` with `version = 1` and `status = "deploying"`. -/
def create_function_local (store : Store) (fid name runtime handler : String)
    (memory timeout : Nat) (description : String) (env : List (String × String))
    (now : Nat) : Except (Nat × String) (Store × Nat × String) :=
  if supported_runtime runtime = false then
    .error (400, "Unsupported runtime: " ++ runtime)
  else if (lookupFn store name).isSome then
    .error (400, "Function " ++ sq ++ name ++ sq ++ " already exists. Use PUT to update.")
  else
    let fd : FunctionData := {
      id := fid, name := name, runtime := runtime, handler := handler,
      memory := memory, timeout := timeout, description := description,
      environment := env, version := 1, status := "deploying", user_id := "",
      code_path := none, created_at := now, updated_at := now,
      invocation_count := 0, error_count := 0 }
    .ok ((name, fd) :: store, 1, "deploying")

/-- `deploy_function` of the local gateway (main_local.py lines 154-160): after
the simulated build sleep, set the status of the record straight to `deployed` (and
refresh `updated_at`) if the record still exists. -/
def deploy_function_local (store : Store) (name : String) (now : Nat) : Store :=
  mapFn store name (fun fd => { fd with status := "deployed", updated_at := now })

/-- The durable-first read shared by `get_function` (main.py lines 430-447) and
the fetch at the top of `invoke_function` (main.py lines 467-480): try
Firestore when the client is configured and the read does not raise, otherwise
(or when the document does not exist) fall back to the in-memory
partition. -/
def fetch_function (dbAvail dbReadOk : Bool) (db mem : Store) (name : String) :
    Option FunctionData :=
  match (if dbAvail && dbReadOk then lookupFn db name else none) with
  | some fd => some fd
  | none => lookupFn mem name

/-- `list_functions` (main.py lines 384-428): stream the Firestore collection;
if that yields nothing (error or genuinely empty), list the in-memory
partition; the `source` field of the response is `"firestore" if db and functions
else "memory"`, judged on the final list. -/
def list_functions (dbAvail dbReadOk : Bool) (db mem : Store) :
    List FunctionData × String :=
  let fns := if dbAvail && dbReadOk then db.map (fun kv => kv.2) else []
  let fns := if fns.isEmpty then mem.map (fun kv => kv.2) else fns
  (fns, if dbAvail && !fns.isEmpty then "firestore" else "memory")

/-- The `invocation_count` increment of `invoke_function` (main.py lines
489-498): with a configured Firestore client, atomically increment there and
swallow (print) any failure; only without a client does the in-memory
partition get incremented, and only if it holds the record. -/
def increment_invocation_count (dbAvail dbIncOk : Bool) (db mem : Store)
    (name : String) : Store × Store :=
  if dbAvail then (if dbIncOk then bumpInvocation db name else db, mem)
  else if (lookupFn mem name).isSome then (db, bumpInvocation mem name)
  else (db, mem)

/-- The `error_count` increment performed in the `except` handler of `invoke_function`
(main.py lines 515-524), same backend choice as the invocation counter. -/
def increment_error_count (dbAvail dbErrOk : Bool) (db mem : Store)
    (name : String) : Store × Store :=
  if dbAvail then (if dbErrOk then bumpError db name else db, mem)
  else if (lookupFn mem name).isSome then (db, bumpError mem name)
  else (db, mem)

/-- The whole in-memory fallback map `functions_memory_store` (main.py line
31): user id to the registry partition of that tenant. -/
abbrev MemoryStore := List (String × Store)

/-- `functions_memory_store.get(key)`: a lookup among the USER ids of the
fallback map, whose values are whole partitions, not records. -/
def lookupUser : MemoryStore → String → Option Store
  | [], _ => none
  | (k, v) :: rest, n => if k = n then some v else lookupUser rest n

/-- Outcome of the cloud version endpoint: the `{version, status: created}`
response together with the `version_data` record it stores, a 404/500, or the
marker for the memory-mode path where a tenant partition dict (not a record)
flowed past the `if not function_data` truthiness check into the copy
logic. -/
inductive VersionResponse
  | created (version : Nat) (versionData : FunctionData)
  | typeConfusedPartition (p : Store)
  | httpError (code : Nat) (msg : String)
  deriving DecidableEq

/-- `create_function_version` (main.py lines 676-706).  Unlike every other
lifecycle endpoint, its lookup does NOT consult the tenant registry
`users/{user-id}/functions`: in db mode it reads the GLOBAL top-level
`functions` collection (line 685), which `create_function` never writes, and
in memory mode it calls `functions_memory_store.get(name)` (line 689),
indexing the USER-keyed fallback map by function name.  On a db-mode hit the
record is copied with `version` (current + 1), `description` and `created_at`
overwritten, and the copy is stored in `function_versions`.  A memory-mode hit
(a user id equal to the requested function name) yields a partition dict where
a record is expected: an empty partition is falsy and 404s like a miss, and a
non-empty one flows into the copy logic as a dict, recorded here as
`typeConfusedPartition` without interpreting the ill-typed continuation. -/
def create_function_version (dbAvail : Bool) (globalFns : Store)
    (memStore : MemoryStore) (name description : String) (now : Nat) :
    VersionResponse :=
  if dbAvail then
    match lookupFn globalFns name with
    | none => .httpError 404 "Function not found"
    | some fd =>
      let new_version := fd.version + 1
      .created new_version
        { fd with version := new_version, description := description,
                  created_at := now }
  else
    match lookupUser memStore name with
    | none => .httpError 404 "Function not found"
    | some p =>
      if p.isEmpty then .httpError 404 "Function not found"
      else .typeConfusedPartition p

/-- `create_version` of the local gateway (main_local.py lines 285-305): bump
the `version` and `updated_at` in place. -/
def create_version_local (store : Store) (name : String) (now : Nat) :
    Except (Nat × String) (Store × Nat) :=
  match lookupFn store name with
  | none => .error (404, "Function " ++ sq ++ name ++ sq ++ " not found")
  | some fd =>
    let new_version := fd.version + 1
    .ok (mapFn store name (fun f => { f with version := new_version, updated_at := now }),
         new_version)

/-! ## Execution dispatcher (main.py lines 527-648) -/

/-- What executing the user handler in-process does: return a value or raise
(the string is the exception message). -/
inductive PyBehavior
  | returns (v : String)
  | raises (msg : String)
  deriving DecidableEq

/-- Parsed shape of the single JSON object the Node.js wrapper prints on
stdout: `{success: true, result}` or `{success: false, error}`. -/
inductive WrapperOut
  | succ (v : String)
  | fail (msg : String)
  deriving DecidableEq

/-- What `subprocess.run` does: hit the wall-clock limit (raising
`TimeoutExpired`) or complete with an exit code, stdout (`none` when it is not
valid JSON) and stderr. -/
inductive SubprocOutcome
  | timedOut
  | completed (rc : Int) (stdout : Option WrapperOut) (stderr : String)
  deriving DecidableEq

/-- Oracle describing the unpacked bundle and what the user code does when
run: whether `main.py` exists, whether loading it as a module raises (with the
message), whether the named handler attribute exists, what the handler does,
whether `index.js` exists and how the Node.js child process behaves. -/
structure Workspace where
  hasMainPy : Bool
  moduleLoad : Option String
  handlerDefined : Bool
  handlerRun : PyBehavior
  hasIndexJs : Bool
  nodeOutcome : SubprocOutcome
  deriving DecidableEq

/-- The value a dispatcher step returns: either the handler result or the
structured `{error: msg}` dict every failure path is converted into. -/
inductive ExecResult
  | ok (v : String)
  | error (msg : String)
  deriving DecidableEq

/-- `execute_python_function` (main.py lines 569-590): in-process strategy.
A missing `main.py` or missing handler attribute returns a structured error;
exceptions from module load or the handler call are caught and returned as
`Python execution failed: ...` errors. -/
def execute_python_function (ws : Workspace) (handler : String) : ExecResult :=
  if ws.hasMainPy = false then .error "main.py not found"
  else
    match ws.moduleLoad with
    | some m => .error ("Python execution failed: " ++ m)
    | none =>
      if ws.handlerDefined then
        match ws.handlerRun with
        | .returns v => .ok v
        | .raises m => .error ("Python execution failed: " ++ m)
      else .error ("Handler " ++ sq ++ handler ++ sq ++ " not found in main.py")

/-- The child-process execution request `subprocess.run(["node", "wrapper.js"],
cwd=code_dir, ..., timeout=30)` issued at main.py lines 630-636.  The timeout
argument is the literal `30`; the record field `timeout` is not passed in. -/
structure SubprocessCall where
  cmd : List String
  cwdIsWorkspace : Bool
  timeout : Nat
  deriving DecidableEq

/-- `str(subprocess.TimeoutExpired)` for the wrapper command, parameterized by
the limit that elapsed. -/
def nodeTimeoutMsg (t : Nat) : String :=
  "Command " ++ sq ++ "[" ++ sq ++ "node" ++ sq ++ ", " ++ sq ++ "wrapper.js"
    ++ sq ++ "]" ++ sq ++ " timed out after " ++ toString t ++ " seconds"

/-- `execute_nodejs_function` (main.py lines 592-648): subprocess strategy.
Returns the dispatch result together with the subprocess call it issued (if
any).  `TimeoutExpired` and JSON parse errors land in the blanket `except`,
producing `Node.js execution failed: ...`; a non-zero exit produces the same
prefix with stderr; a wrapper-reported handler failure returns the raw handler
message. -/
def execute_nodejs_function (ws : Workspace) : ExecResult × Option SubprocessCall :=
  if ws.hasIndexJs = false then (.error "index.js not found", none)
  else
    let call : SubprocessCall :=
      { cmd := ["node", "wrapper.js"], cwdIsWorkspace := true, timeout := 30 }
    match ws.nodeOutcome with
    | .timedOut =>
        (.error ("Node.js execution failed: " ++ nodeTimeoutMsg call.timeout), some call)
    | .completed rc stdout stderr =>
        if rc ≠ 0 then (.error ("Node.js execution failed: " ++ stderr), some call)
        else
          match stdout with
          | none => (.error "Node.js execution failed: stdout is not valid JSON", some call)
          | some (.fail m) => (.error m, some call)
          | some (.succ v) => (.ok v, some call)

/-- Side effects of `execute_function` that are observable outside the
process: downloading the artifact, unpacking it, and entering one of the two
execution strategies. -/
inductive ExecEffect
  | download
  | unpack
  | runPython
  | runNodejs
  deriving DecidableEq

/-- Result of the dispatcher: the returned value/error, the effects performed
before returning, in order, and the subprocess call if one was issued. -/
structure DispatchResult where
  result : ExecResult
  effects : List ExecEffect
  subprocCall : Option SubprocessCall
  deriving DecidableEq

/-- `execute_function` (main.py lines 527-567): check `code_path`, download the
artifact, unpack it into the temporary workspace, and only then branch on the
runtime string; runtimes outside the python/nodejs families fall through to
the `Runtime ... not supported for local execution` error.  Every exception is
caught and returned as `{error: ...}`, so the dispatcher itself never
raises. -/
def execute_function (fd : FunctionData) (downloadOk : Bool) (ws : Workspace) :
    DispatchResult :=
  match fd.code_path with
  | none => { result := .error "No code path found for function", effects := [],
              subprocCall := none }
  | some _ =>
    if downloadOk = false then
      { result := .error "Function execution failed: artifact download error",
        effects := [.download], subprocCall := none }
    else if strStartsWith fd.runtime "python" then
      { result := execute_python_function ws fd.handler,
        effects := [.download, .unpack, .runPython], subprocCall := none }
    else if strStartsWith fd.runtime "nodejs" then
      let r := execute_nodejs_function ws
      { result := r.1, effects := [.download, .unpack, .runNodejs], subprocCall := r.2 }
    else
      { result := .error ("Runtime " ++ fd.runtime ++ " not supported for local execution"),
        effects := [.download, .unpack], subprocCall := none }

/-! ## Invocation endpoints -/

/-- Accounting and execution steps of an invocation, in the order the endpoint
performs them. -/
inductive Event
  | logInvocation
  | incInvocation
  | execUser
  | logError
  | incError
  deriving DecidableEq

/-- The HTTP-level outcome of an invocation: a success body or an
`HTTPException(code, msg)`. -/
inductive InvokeOutcome
  | success (r : ExecResult)
  | httpError (code : Nat) (msg : String)
  deriving DecidableEq

/-- How the execution step behaves from the point of view of the endpoint:
return a value (possibly a structured error dict) or raise. -/
inductive ExecBehavior
  | returns (r : ExecResult)
  | raises (msg : String)
  deriving DecidableEq

/-- Post-state of the cloud invocation endpoint. -/
structure InvokeResult where
  outcome : InvokeOutcome
  db : Store
  mem : Store
  events : List Event
  deriving DecidableEq

/-- `invoke_function` (main.py lines 464-525): fetch the record (durable first,
then memory), 404 when absent; then log, increment `invocation_count`
(best-effort), execute; a raised execution error is logged, bumps
`error_count` (best-effort) and becomes HTTP 500, while a returned value — even
a structured error dict — is wrapped in a success body. -/
def invoke_cloud (dbAvail dbReadOk dbIncOk dbErrOk : Bool) (db mem : Store)
    (name : String) (behavior : ExecBehavior) : InvokeResult :=
  match fetch_function dbAvail dbReadOk db mem name with
  | none => { outcome := .httpError 404 "Function not found", db := db, mem := mem,
              events := [] }
  | some _ =>
    let s1 := increment_invocation_count dbAvail dbIncOk db mem name
    match behavior with
    | .returns r =>
        { outcome := .success r, db := s1.1, mem := s1.2,
          events := [.logInvocation, .incInvocation, .execUser] }
    | .raises m =>
        let s2 := increment_error_count dbAvail dbErrOk s1.1 s1.2 name
        { outcome := .httpError 500 ("Function execution failed: " ++ m),
          db := s2.1, mem := s2.2,
          events := [.logInvocation, .incInvocation, .execUser, .logError, .incError] }

/-- The cloud invocation endpoint composed with the real dispatcher: since
`execute_function` catches every exception and returns `{error: ...}` instead,
the behavior handed to the endpoint is always `returns`. -/
def invoke_cloud_exec (dbAvail dbReadOk dbIncOk dbErrOk : Bool) (db mem : Store)
    (name : String) (downloadOk : Bool) (ws : Workspace) : InvokeResult :=
  let behavior : ExecBehavior :=
    match fetch_function dbAvail dbReadOk db mem name with
    | none => .returns (.error "")
    | some fd => .returns (execute_function fd downloadOk ws).result
  invoke_cloud dbAvail dbReadOk dbIncOk dbErrOk db mem name behavior

/-- Post-state of the local invocation endpoint. -/
structure LocalResult where
  outcome : InvokeOutcome
  store : Store
  events : List Event
  deriving DecidableEq

/-- `invoke_function` of the local gateway (main_local.py lines 203-234): 404
when the record is absent, 400 when its status is not `deployed`; only then
increment `invocation_count`, log and execute; a raised execution error bumps
`error_count` and becomes HTTP 500. -/
def invoke_local (store : Store) (name : String) (behavior : ExecBehavior) :
    LocalResult :=
  match lookupFn store name with
  | none =>
      { outcome := .httpError 404 ("Function " ++ sq ++ name ++ sq ++ " not found"),
        store := store, events := [] }
  | some fd =>
    if fd.status ≠ "deployed" then
      { outcome := .httpError 400 ("Function is not deployed yet. Status: " ++ fd.status),
        store := store, events := [] }
    else
      let s1 := bumpInvocation store name
      match behavior with
      | .returns r =>
          { outcome := .success r, store := s1,
            events := [.incInvocation, .logInvocation, .execUser] }
      | .raises m =>
          { outcome := .httpError 500 ("Function execution failed: " ++ m),
            store := bumpError s1 name,
            events := [.incInvocation, .logInvocation, .execUser, .logError, .incError] }

/-- `a` occurs strictly before `b` in the trace. -/
def precedes (tr : List Event) (a b : Event) : Prop :=
  ∃ i j : Nat, i < j ∧ tr[i]? = some a ∧ tr[j]? = some b

/-! ## Concrete sample data used by witnesses and counterexamples -/

/-- A deployed python function record, as `create_function` plus a finished
deployment would leave it. -/
def sampleFn : FunctionData :=
  { id := "fid-0", name := "f", runtime := "python3.9", handler := "main",
    memory := 512, timeout := 30, description := "", environment := [],
    version := 1, status := "deployed", user_id := "alice",
    code_path := some "gs://vajra-functions-f765d09f3196bb52/users/alice/f/v1/fid-0.zip",
    created_at := 0, updated_at := 0, invocation_count := 0, error_count := 0 }

/-- A workspace whose unpacked bundle contains no entry file at all. -/
def wsNoMain : Workspace :=
  { hasMainPy := false, moduleLoad := none, handlerDefined := false,
    handlerRun := .returns "", hasIndexJs := false, nodeOutcome := .timedOut }

/-- A workspace holding `index.js`, whose Node.js child process hits the
wall-clock limit. -/
def wsNodeTimeout : Workspace :=
  { hasMainPy := true, moduleLoad := none, handlerDefined := true,
    handlerRun := .returns "", hasIndexJs := true, nodeOutcome := .timedOut }

/-- The deployment state machine of spec section 4.2: the only status edges
the specification allows. -/
def machineEdges : List (String × String) :=
  [("deploying", "building"), ("building", "deployed"), ("building", "failed")]

/-- The store produced by a fresh local `create_function` of `f`. -/
def c4Store : Store :=
  [("f", { id := "fid-1", name := "f", runtime := "python3.9", handler := "main",
           memory := 512, timeout := 30, description := "", environment := [],
           version := 1, status := "deploying", user_id := "", code_path := none,
           created_at := 0, updated_at := 0, invocation_count := 0, error_count := 0 })]

/-- The version record `create_function_version` builds from the sample store
with description `d` at tick 3. -/
def c4V2 : FunctionData :=
  { sampleFn with version := sampleFn.version + 1, description := "d", created_at := 3 }

/-! ## Helper lemmas -/

theorem lookupFn_mapFn_self (s : Store) (n : String) (f : FunctionData → FunctionData) :
    lookupFn (mapFn s n f) n = (lookupFn s n).map f := by
  induction s with
  | nil => rfl
  | cons kv rest ih =>
      obtain ⟨k, v⟩ := kv
      by_cases h : k = n
      · simp [mapFn, lookupFn, h]
      · simpa [mapFn, lookupFn, h] using ih

/-! ## Claims -/

/-- C2 counterexample: a nodejs record with `timeoutSeconds = 60`.  The wrapper
child process is executed with a wall-clock limit of 30 — the literal in the
source — not the 60 of the record, and the elapsed limit surfaces through the
blanket handler as a `Node.js execution failed: ...` message rather than a
distinct Timeout classification. -/
theorem C2_counterexample :
    ({ sampleFn with runtime := "nodejs18", timeout := 60 } : FunctionData).timeout = 60 ∧
    (execute_function { sampleFn with runtime := "nodejs18", timeout := 60 } true
        wsNodeTimeout).subprocCall
      = some { cmd := ["node", "wrapper.js"], cwdIsWorkspace := true, timeout := 30 } ∧
    ¬ (30 : Nat) = 60 ∧
    (execute_function { sampleFn with runtime := "nodejs18", timeout := 60 } true
        wsNodeTimeout).result
      = .error ("Node.js execution failed: " ++ nodeTimeoutMsg 30) := by decide

/-- C2 (amended): every subprocess-strategy invocation that finds `index.js`
executes the wrapper child process with a fixed 30-second wall-clock limit —
the record field `timeoutSeconds` is never passed to the executor; when that
limit elapses, `TimeoutExpired` is caught by the blanket handler and surfaces
as a `Node.js execution failed: ...` error string, while an error raised by the
handler itself surfaces as the raw handler message via the wrapper JSON — the
two differ in message shape only, with no dedicated Timeout classification. -/
theorem C2_subprocess_fixed_timeout (ws : Workspace) (hidx : ws.hasIndexJs = true) :
    (execute_nodejs_function ws).2
      = some { cmd := ["node", "wrapper.js"], cwdIsWorkspace := true, timeout := 30 } ∧
    (ws.nodeOutcome = .timedOut →
      (execute_nodejs_function ws).1
        = .error ("Node.js execution failed: " ++ nodeTimeoutMsg 30)) ∧
    (∀ m stderr, ws.nodeOutcome = .completed 0 (some (.fail m)) stderr →
      (execute_nodejs_function ws).1 = .error m) := by
  obtain ⟨hm, ml, hd, hr, hij, no⟩ := ws
  simp only [Workspace.hasIndexJs] at hidx
  subst hidx
  refine ⟨?_, ?_, ?_⟩
  · cases no with
    | timedOut => simp [execute_nodejs_function]
    | completed rc stdout stderr =>
        by_cases hrc : rc = 0
        · subst hrc
          cases stdout with
          | none => simp [execute_nodejs_function]
          | some w => cases w <;> simp [execute_nodejs_function]
        · simp [execute_nodejs_function, hrc]
  · intro ho
    simp only [Workspace.nodeOutcome] at ho
    subst ho
    simp [execute_nodejs_function]
  · intro m stderr ho
    simp only [Workspace.nodeOutcome] at ho
    subst ho
    simp [execute_nodejs_function]

/-- C2 witness: the timed-out child process of `wsNodeTimeout`. -/
theorem C2_witness :
    (execute_nodejs_function wsNodeTimeout).2
      = some { cmd := ["node", "wrapper.js"], cwdIsWorkspace := true, timeout := 30 } ∧
    (execute_nodejs_function wsNodeTimeout).1
      = .error ("Node.js execution failed: " ++ nodeTimeoutMsg 30) := by
  have h := C2_subprocess_fixed_timeout wsNodeTimeout rfl
  exact ⟨h.1, h.2.1 rfl⟩

/-- C3 counterexample: when the durable registry client is unavailable, the
background deployment task returns immediately, so after it has settled the
record created with status `deploying` still carries `deploying` — neither
`deployed` nor `failed`. -/
theorem C3_counterexample :
    deploy_function_runtime false true true true true "deploying" = "deploying" ∧
    ¬ ("deploying" ∈ (["deployed", "failed"] : List String)) := by decide

/-- C3 (amended): every successful create with a supported runtime answers
version 1 and status `deploying`; once the background task settles WITH the
registry available and either both status updates succeeding or the
failure-path update succeeding, the status is `deployed` or `failed`; the
local variant always settles to `deployed`.  (When the registry is unavailable
or its updates fail, the record instead keeps its last recorded status.) -/
theorem C3_create_then_settle (fid name runtime handler : String)
    (memory timeout : Nat) (description userId : String)
    (env : List (String × String)) (now : Nat)
    (hrt : supported_runtime runtime = true)
    (dbAvail hasUserId upd1ok upd2ok updFailOk : Bool) (st : String)
    (hdb : dbAvail = true) (hu : hasUserId = true)
    (hupd : (upd1ok = true ∧ upd2ok = true) ∨ updFailOk = true)
    (store : Store) (lname : String) (fd : FunctionData)
    (hfd : lookupFn store lname = some fd) :
    (∃ newFd, create_function fid name runtime handler memory timeout description
        userId env now = .ok (newFd, 1, "deploying")
      ∧ newFd.version = 1 ∧ newFd.status = "deploying") ∧
    deploy_function_runtime dbAvail hasUserId upd1ok upd2ok updFailOk st
      ∈ (["deployed", "failed"] : List String) ∧
    (lookupFn (deploy_function_local store lname now) lname).map (fun f => f.status)
      = some "deployed" := by
  refine ⟨?_, ?_, ?_⟩
  · unfold create_function
    rw [hrt]
    exact ⟨_, rfl, rfl, rfl⟩
  · subst hdb; subst hu
    rcases hupd with ⟨h1, h2⟩ | h3
    · subst h1; subst h2
      cases updFailOk <;> simp [deploy_function_runtime]
    · subst h3
      cases upd1ok <;> cases upd2ok <;> simp [deploy_function_runtime]
  · simp [deploy_function_local, lookupFn_mapFn_self, hfd]

/-- C3 witness: a concrete create plus a settling run with all updates
succeeding, and a local deployment of the sample store. -/
theorem C3_witness :
    (∃ newFd, create_function "fid-1" "f" "python3.9" "main" 512 30 "" "alice" [] 0
        = .ok (newFd, 1, "deploying")
      ∧ newFd.version = 1 ∧ newFd.status = "deploying") ∧
    deploy_function_runtime true true true true true "deploying"
      ∈ (["deployed", "failed"] : List String) ∧
    (lookupFn (deploy_function_local [("f", { sampleFn with status := "deploying" })] "f" 7)
        "f").map (fun f => f.status) = some "deployed" :=
  C3_create_then_settle "fid-1" "f" "python3.9" "main" 512 30 "" "alice" [] 0 (by decide)
    true true true true true "deploying" rfl rfl (Or.inl ⟨rfl, rfl⟩)
    [("f", { sampleFn with status := "deploying" })] "f"
    { sampleFn with status := "deploying" } rfl

/-- C4 counterexample: the local gateway moves a freshly created record (status
`deploying`) directly to `deployed` — an edge the machine of spec section 4.2
does not contain (`building` is skipped). -/
theorem C4_counterexample :
    create_function_local [] "fid-1" "f" "python3.9" "main" 512 30 "" [] 0
      = .ok (c4Store, 1, "deploying") ∧
    (lookupFn c4Store "f").map (fun f => f.status) = some "deploying" ∧
    (lookupFn (deploy_function_local c4Store "f" 5) "f").map (fun f => f.status)
      = some "deployed" ∧
    machineEdges.contains ("deploying", "deployed") = false := by decide

/-- C4 (amended): the cloud orchestrator only writes status transitions along
`deploying to building`, `building to deployed`, `building to failed`, plus
`deploying to failed` when the `building` update raises but the failure-path
update succeeds; the local variant moves a record straight from its current
status to `deployed`, skipping `building`; and `create_function_version` never
decreases `version`. -/
theorem C4_status_machine (d h u1 u2 uf : Bool) (store globalFns : Store)
    (memStore : MemoryStore) (name desc : String)
    (now : Nat) (fd gfd fd2 : FunctionData) (nv : Nat)
    (hfd : lookupFn store name = some fd)
    (hgfd : lookupFn globalFns name = some gfd)
    (hcv : create_function_version true globalFns memStore name desc now
      = .created nv fd2) :
    (deploy_transitions_cloud d h u1 u2 uf "deploying").all
        (fun t => (machineEdges ++ [("deploying", "failed")]).contains t) = true ∧
    (lookupFn (deploy_function_local store name now) name).map (fun f => f.status)
      = some "deployed" ∧
    gfd.version ≤ fd2.version := by
  refine ⟨?_, ?_, ?_⟩
  · cases d <;> cases h <;> cases u1 <;> cases u2 <;> cases uf <;> decide
  · simp [deploy_function_local, lookupFn_mapFn_self, hfd]
  · simp [create_function_version, hgfd] at hcv
    obtain ⟨h1, h2⟩ := hcv
    subst h2
    simp

/-- C4 witness: the sample store, with every transition flag enabled. -/
theorem C4_witness :
    (deploy_transitions_cloud true true true true true "deploying").all
        (fun t => (machineEdges ++ [("deploying", "failed")]).contains t) = true ∧
    (lookupFn (deploy_function_local [("f", sampleFn)] "f" 3) "f").map (fun f => f.status)
      = some "deployed" ∧
    sampleFn.version ≤ c4V2.version :=
  C4_status_machine true true true true true [("f", sampleFn)] [("f", sampleFn)] []
    "f" "d" 3 sampleFn sampleFn c4V2 (sampleFn.version + 1) rfl rfl (by decide)

/-- C5 counterexample: the durable read fails (`dbReadOk = false`) and the
in-memory partition supplies the rows, yet the `source` tag of the response
says `firestore` — not the backend that actually produced the data. -/
theorem C5_counterexample :
    list_functions true false [] [("f", sampleFn)] = ([sampleFn], "firestore") ∧
    ¬ ("firestore" : String) = "memory" ∧
    increment_invocation_count true false [] [("f", sampleFn)] "f"
      = ([], [("f", sampleFn)]) := by decide

/-- C5 (amended): reads try the durable backend first and fall back to the
in-memory partition when the durable side errors or yields nothing; but only
the list response carries a source tag, that tag reads `firestore` whenever
the durable client is configured and the final list is non-empty even when the
memory partition produced it; and a counter increment whose durable write
fails is swallowed without a retry against the memory partition. -/
theorem C5_fallback_and_tagging (db mem : Store) (name : String) :
    increment_invocation_count true false db mem name = (db, mem) ∧
    increment_error_count true false db mem name = (db, mem) ∧
    list_functions true false db mem
      = (mem.map (fun kv => kv.2),
         if (mem.map (fun kv => kv.2)).isEmpty then "memory" else "firestore") ∧
    ((db.map (fun kv => kv.2)).isEmpty = false →
      list_functions true true db mem = (db.map (fun kv => kv.2), "firestore")) ∧
    (lookupFn db name = none →
      fetch_function true true db mem name = lookupFn mem name) ∧
    fetch_function false false db mem name = lookupFn mem name := by
  refine ⟨?_, ?_, ?_, ?_, ?_, ?_⟩
  · simp [increment_invocation_count]
  · simp [increment_error_count]
  · cases hmem : (mem.map (fun kv => kv.2)).isEmpty <;>
      simp [list_functions, hmem]
  · intro hne
    simp [list_functions, hne]
  · intro h0
    simp [fetch_function, h0]
  · simp [fetch_function]

/-- C5 witness: a durable partition holding `g` and a memory partition holding
`f`. -/
theorem C5_witness :
    increment_invocation_count true false [("g", sampleFn)] [("f", sampleFn)] "f"
      = ([("g", sampleFn)], [("f", sampleFn)]) ∧
    list_functions true true [("g", sampleFn)] [("f", sampleFn)]
      = ([sampleFn], "firestore") ∧
    fetch_function true true [("g", sampleFn)] [("f", sampleFn)] "f"
      = lookupFn [("f", sampleFn)] "f" := by
  have h := C5_fallback_and_tagging [("g", sampleFn)] [("f", sampleFn)] "f"
  exact ⟨h.1, by simpa using h.2.2.2.1 rfl, h.2.2.2.2.1 rfl⟩

/-- C6 counterexample: dispatching a `go1.19` function downloads the artifact
and unpacks the bundle BEFORE returning the unsupported-runtime error — the
effect list is not empty, so partial work is performed. -/
theorem C6_counterexample :
    (execute_function { sampleFn with runtime := "go1.19" } true wsNoMain).result
      = .error "Runtime go1.19 not supported for local execution" ∧
    (execute_function { sampleFn with runtime := "go1.19" } true wsNoMain).effects
      = [.download, .unpack] ∧
    ¬ (execute_function { sampleFn with runtime := "go1.19" } true wsNoMain).effects
      = [] := by decide

/-- C6 (amended): dispatching a function whose runtime maps to no execution
strategy returns the unsupported-runtime error only AFTER downloading the
artifact and unpacking the bundle into the workspace; no execution strategy is
entered and no subprocess is spawned, but the download and unpack work is
performed. -/
theorem C6_unsupported_runtime_after_unpack (fd : FunctionData) (ws : Workspace)
    (p : String) (hcode : fd.code_path = some p)
    (hp : strStartsWith fd.runtime "python" = false)
    (hn : strStartsWith fd.runtime "nodejs" = false) :
    execute_function fd true ws
      = { result := .error ("Runtime " ++ fd.runtime ++ " not supported for local execution"),
          effects := [.download, .unpack], subprocCall := none } ∧
    .download ∈ (execute_function fd true ws).effects := by
  have h1 : execute_function fd true ws
      = { result := .error ("Runtime " ++ fd.runtime ++ " not supported for local execution"),
          effects := [.download, .unpack], subprocCall := none } := by
    simp [execute_function, hcode, hp, hn]
  exact ⟨h1, by rw [h1]; simp⟩

/-- C6 witness: the `go1.19` record. -/
theorem C6_witness :
    execute_function { sampleFn with runtime := "go1.19" } true wsNoMain
      = { result := .error ("Runtime "
            ++ ({ sampleFn with runtime := "go1.19" } : FunctionData).runtime
            ++ " not supported for local execution"),
          effects := [.download, .unpack], subprocCall := none } ∧
    .download ∈ (execute_function { sampleFn with runtime := "go1.19" } true
        wsNoMain).effects :=
  C6_unsupported_runtime_after_unpack { sampleFn with runtime := "go1.19" } wsNoMain
    "gs://vajra-functions-f765d09f3196bb52/users/alice/f/v1/fid-0.zip" rfl
    (by decide) (by decide)

/-- C7: invoking a function name that exists in neither backend returns the 404
`NotFound` outcome in both gateway variants, with both registry partitions
returned exactly as they were — no `invocation_count` or `error_count`
mutation — and an empty event trace. -/
theorem C7_notfound_no_mutation (dbAvail dbReadOk dbIncOk dbErrOk : Bool)
    (db mem store : Store) (name : String) (b : ExecBehavior)
    (hdb : lookupFn db name = none) (hmem : lookupFn mem name = none)
    (hloc : lookupFn store name = none) :
    invoke_cloud dbAvail dbReadOk dbIncOk dbErrOk db mem name b
      = { outcome := .httpError 404 "Function not found", db := db, mem := mem,
          events := [] } ∧
    invoke_local store name b
      = { outcome := .httpError 404 ("Function " ++ sq ++ name ++ sq ++ " not found"),
          store := store, events := [] } := by
  constructor
  · have hf : fetch_function dbAvail dbReadOk db mem name = none := by
      simp [fetch_function, hdb, hmem]
    simp [invoke_cloud, hf]
  · simp [invoke_local, hloc]

/-- C7 witness: concrete empty stores, name `ghost`. -/
theorem C7_witness :
    invoke_cloud true true true true [] [] "ghost" (.returns (.ok "v"))
      = { outcome := .httpError 404 "Function not found", db := [], mem := [],
          events := [] } ∧
    invoke_local [] "ghost" (.returns (.ok "v"))
      = { outcome := .httpError 404 ("Function " ++ sq ++ "ghost" ++ sq ++ " not found"),
          store := [], events := [] } :=
  C7_notfound_no_mutation true true true true [] [] [] "ghost" (.returns (.ok "v"))
    rfl rfl rfl

/-- C8 counterexample: the function `f` exists for tenant `alice` (it sits in
the tenant partition, where `create_function` put it), yet the cloud version
endpoint answers 404 in BOTH modes — in db mode it reads the global
`functions` collection, which is empty because no endpoint writes it, and in
memory mode it indexes the user-keyed fallback map by the function name `f`,
which matches no user id.  In particular it does not answer version N + 1. -/
theorem C8_counterexample :
    lookupFn [("f", sampleFn)] "f" = some sampleFn ∧
    lookupUser [("alice", [("f", sampleFn)])] "alice" = some [("f", sampleFn)] ∧
    create_function_version true [] [("alice", [("f", sampleFn)])] "f" "v2" 9
      = .httpError 404 "Function not found" ∧
    create_function_version false [] [("alice", [("f", sampleFn)])] "f" "v2" 9
      = .httpError 404 "Function not found" ∧
    ¬ create_function_version true [] [("alice", [("f", sampleFn)])] "f" "v2" 9
      = .created (sampleFn.version + 1)
          { sampleFn with version := sampleFn.version + 1, description := "v2",
                          created_at := 9 } := by decide

/-- C8 (amended): the cloud `CreateVersion` consults the global top-level
`functions` collection (db mode) or the user-keyed memory map indexed by
function name (memory mode) — never the tenant registry — so a function
created through `CreateFunction` is answered 404 whenever the global
collection lacks its name and no user id equals it; when the global collection
DOES hold a record under the requested name, the response is version N + 1 and
the stored version record equals that record except `version`, `description`
and `created_at`.  The local gateway `CreateVersion` on an existing function
does answer N + 1, bumping only `version` and `updated_at` of the live
record and preserving every other field. -/
theorem C8_version_wrong_collection (dbAvail : Bool) (globalFns store : Store)
    (memStore : MemoryStore) (name desc : String) (now : Nat)
    (fd : FunctionData) :
    (lookupFn globalFns name = none → lookupUser memStore name = none →
      create_function_version dbAvail globalFns memStore name desc now
        = .httpError 404 "Function not found") ∧
    (lookupFn globalFns name = some fd →
      create_function_version true globalFns memStore name desc now
        = .created (fd.version + 1)
            { fd with version := fd.version + 1, description := desc,
                      created_at := now }) ∧
    (lookupFn store name = some fd →
      create_version_local store name now
        = .ok (mapFn store name
            (fun f => { f with version := fd.version + 1, updated_at := now }),
           fd.version + 1) ∧
      lookupFn (mapFn store name
            (fun f => { f with version := fd.version + 1, updated_at := now })) name
        = some { fd with version := fd.version + 1, updated_at := now }) := by
  refine ⟨?_, ?_, ?_⟩
  · intro hg hu
    cases dbAvail <;> simp [create_function_version, hg, hu]
  · intro hgfd
    simp [create_function_version, hgfd]
  · intro hfd
    constructor
    · simp [create_version_local, hfd]
    · simp [lookupFn_mapFn_self, hfd]

/-- C8 witness: the 404 at a tenant-held function, the db-mode copy when the
global collection does hold the name, and the local-gateway increment. -/
theorem C8_witness :
    create_function_version true [] [("alice", [("f", sampleFn)])] "f" "second rev" 9
      = .httpError 404 "Function not found" ∧
    create_function_version true [("f", sampleFn)] [] "f" "second rev" 9
      = .created (sampleFn.version + 1)
          { sampleFn with version := sampleFn.version + 1, description := "second rev",
                          created_at := 9 } ∧
    create_version_local [("f", sampleFn)] "f" 9
      = .ok (mapFn [("f", sampleFn)] "f"
          (fun f => { f with version := sampleFn.version + 1, updated_at := 9 }),
         sampleFn.version + 1) := by
  refine ⟨?_, ?_, ?_⟩
  · exact (C8_version_wrong_collection true [] [("f", sampleFn)]
      [("alice", [("f", sampleFn)])] "f" "second rev" 9 sampleFn).1 rfl rfl
  · exact (C8_version_wrong_collection true [("f", sampleFn)] [("f", sampleFn)] []
      "f" "second rev" 9 sampleFn).2.1 rfl
  · exact ((C8_version_wrong_collection true [("f", sampleFn)] [("f", sampleFn)] []
      "f" "second rev" 9 sampleFn).2.2 rfl).1

/-- C10: in the local gateway, invoking an existing function whose status is
not `deployed` is rejected with HTTP 400 before any side effect: the store is
returned unchanged (both counters included) and the event trace is empty, so
no execution was attempted. -/
theorem C10_undeployed_rejected (store : Store) (name : String) (fd : FunctionData)
    (b : ExecBehavior) (h : lookupFn store name = some fd)
    (hs : fd.status ≠ "deployed") :
    invoke_local store name b
      = { outcome := .httpError 400 ("Function is not deployed yet. Status: " ++ fd.status),
          store := store, events := [] } := by
  simp [invoke_local, h, hs]

/-- C1 counterexample: with the fallback store holding `f` (a python function
whose unpacked bundle lacks `main.py`), the invocation answers a SUCCESS body
whose result is the structured error, and `error_count` observed through the
durable-first read afterwards is still 0 — not one greater than before, as the
claim demands. -/
theorem C1_counterexample :
    (invoke_cloud_exec false false false false [] [("f", sampleFn)] "f" true wsNoMain).outcome
      = .success (.error "main.py not found") ∧
    sampleFn.error_count = 0 ∧
    (fetch_function false false []
        (invoke_cloud_exec false false false false [] [("f", sampleFn)] "f" true wsNoMain).mem
        "f").map (fun f => f.error_count) = some 0 ∧
    ¬ (fetch_function false false []
        (invoke_cloud_exec false false false false [] [("f", sampleFn)] "f" true wsNoMain).mem
        "f").map (fun f => f.error_count) = some 1 := by decide

/-- C1 (amended): in BOTH operational modes — the durable registry configured
and readable, or the in-memory fallback — invoking an existing python function
whose entry file `main.py` is missing yields an HTTP-success response whose
result is the structured `{error: main.py not found}` value, and the
`error_count` observed afterward through the durable-first read `get_function`
performs is unchanged: `execute_function` converts the failure into a returned
value, so the `except` branch that bumps `error_count` never runs.  The
durable mode is stated for both outcomes of the best-effort
`invocation_count` write. -/
theorem C1_missing_entry_error_without_count (db mem : Store) (name p : String)
    (fd : FunctionData) (ws : Workspace) (dbIncOk dbErrOk : Bool)
    (hcode : fd.code_path = some p)
    (hpy : strStartsWith fd.runtime "python" = true)
    (hmain : ws.hasMainPy = false) :
    (lookupFn mem name = some fd →
      (invoke_cloud_exec false false false dbErrOk db mem name true ws).outcome
        = .success (.error "main.py not found") ∧
      (fetch_function false false []
          (invoke_cloud_exec false false false dbErrOk db mem name true ws).mem
          name).map (fun f => f.error_count) = some fd.error_count) ∧
    (lookupFn db name = some fd →
      (invoke_cloud_exec true true dbIncOk dbErrOk db mem name true ws).outcome
        = .success (.error "main.py not found") ∧
      (fetch_function true true
          (invoke_cloud_exec true true dbIncOk dbErrOk db mem name true ws).db
          (invoke_cloud_exec true true dbIncOk dbErrOk db mem name true ws).mem
          name).map (fun f => f.error_count) = some fd.error_count) := by
  have hexec : (execute_function fd true ws).result = .error "main.py not found" := by
    simp [execute_function, hcode, hpy, execute_python_function, hmain]
  constructor
  · intro hmem
    have hf : fetch_function false false db mem name = some fd := by
      simp [fetch_function, hmem]
    have hinc : increment_invocation_count false false db mem name
        = (db, bumpInvocation mem name) := by
      simp [increment_invocation_count, hmem]
    have hr : invoke_cloud_exec false false false dbErrOk db mem name true ws
        = { outcome := .success (.error "main.py not found"), db := db,
            mem := bumpInvocation mem name,
            events := [.logInvocation, .incInvocation, .execUser] } := by
      simp [invoke_cloud_exec, invoke_cloud, hf, hexec, hinc]
    rw [hr]
    exact ⟨rfl, by simp [fetch_function, bumpInvocation, lookupFn_mapFn_self, hmem]⟩
  · intro hdb
    have hf : fetch_function true true db mem name = some fd := by
      simp [fetch_function, hdb]
    cases dbIncOk with
    | false =>
        have hinc : increment_invocation_count true false db mem name = (db, mem) := by
          simp [increment_invocation_count]
        have hr : invoke_cloud_exec true true false dbErrOk db mem name true ws
            = { outcome := .success (.error "main.py not found"), db := db, mem := mem,
                events := [.logInvocation, .incInvocation, .execUser] } := by
          simp [invoke_cloud_exec, invoke_cloud, hf, hexec, hinc]
        rw [hr]
        exact ⟨rfl, by simp [fetch_function, hdb]⟩
    | true =>
        have hinc : increment_invocation_count true true db mem name
            = (bumpInvocation db name, mem) := by
          simp [increment_invocation_count]
        have hr : invoke_cloud_exec true true true dbErrOk db mem name true ws
            = { outcome := .success (.error "main.py not found"),
                db := bumpInvocation db name, mem := mem,
                events := [.logInvocation, .incInvocation, .execUser] } := by
          simp [invoke_cloud_exec, invoke_cloud, hf, hexec, hinc]
        rw [hr]
        exact ⟨rfl, by simp [fetch_function, bumpInvocation, lookupFn_mapFn_self, hdb]⟩

/-- C1 witness: the sample store in both backends, a bundle without `main.py`,
with the durable invocation-count write landing. -/
theorem C1_witness :
    (invoke_cloud_exec false false false false [("f", sampleFn)] [("f", sampleFn)]
        "f" true wsNoMain).outcome
      = .success (.error "main.py not found") ∧
    (fetch_function false false []
        (invoke_cloud_exec false false false false [("f", sampleFn)] [("f", sampleFn)]
          "f" true wsNoMain).mem
        "f").map (fun f => f.error_count) = some sampleFn.error_count ∧
    (invoke_cloud_exec true true true false [("f", sampleFn)] [("f", sampleFn)]
        "f" true wsNoMain).outcome
      = .success (.error "main.py not found") ∧
    (fetch_function true true
        (invoke_cloud_exec true true true false [("f", sampleFn)] [("f", sampleFn)]
          "f" true wsNoMain).db
        (invoke_cloud_exec true true true false [("f", sampleFn)] [("f", sampleFn)]
          "f" true wsNoMain).mem
        "f").map (fun f => f.error_count) = some sampleFn.error_count := by
  have h := C1_missing_entry_error_without_count [("f", sampleFn)] [("f", sampleFn)]
    "f" "gs://vajra-functions-f765d09f3196bb52/users/alice/f/v1/fid-0.zip" sampleFn
    wsNoMain true false rfl (by decide) rfl
  exact ⟨(h.1 rfl).1, (h.1 rfl).2, (h.2 rfl).1, (h.2 rfl).2⟩

/-- C9: for an invocation of an existing function, `invocation_count` is
incremented before the execution step (the trace places `incInvocation`
strictly before `execUser`) and ends one greater than before for EVERY
execution behavior — a returned error value or a raised exception alike — so
the increment is never rolled back.  Stated for both counter backends: the
in-memory path (no durable client) and the durable path (client configured,
increment succeeding). -/
theorem C9_count_incremented_before_execution (db mem : Store) (name : String)
    (fd : FunctionData) (b : ExecBehavior) (dbErrOk : Bool) :
    (lookupFn mem name = some fd →
      (lookupFn (invoke_cloud false false false dbErrOk db mem name b).mem name).map
          (fun f => f.invocation_count) = some (fd.invocation_count + 1) ∧
      precedes (invoke_cloud false false false dbErrOk db mem name b).events
        .incInvocation .execUser) ∧
    (lookupFn db name = some fd →
      (lookupFn (invoke_cloud true true true dbErrOk db mem name b).db name).map
          (fun f => f.invocation_count) = some (fd.invocation_count + 1) ∧
      precedes (invoke_cloud true true true dbErrOk db mem name b).events
        .incInvocation .execUser) := by
  constructor
  · intro hmem
    have hf : fetch_function false false db mem name = some fd := by
      simp [fetch_function, hmem]
    have hinc : increment_invocation_count false false db mem name
        = (db, bumpInvocation mem name) := by
      simp [increment_invocation_count, hmem]
    have hmem1 : lookupFn (bumpInvocation mem name) name
        = some { fd with invocation_count := fd.invocation_count + 1 } := by
      simp [bumpInvocation, lookupFn_mapFn_self, hmem]
    cases b with
    | returns r =>
        have hr : invoke_cloud false false false dbErrOk db mem name (.returns r)
            = { outcome := .success r, db := db, mem := bumpInvocation mem name,
                events := [.logInvocation, .incInvocation, .execUser] } := by
          simp [invoke_cloud, hf, hinc]
        rw [hr]
        exact ⟨by simp [hmem1], 1, 2, by omega, rfl, rfl⟩
    | raises m =>
        have herr : increment_error_count false dbErrOk db (bumpInvocation mem name) name
            = (db, bumpError (bumpInvocation mem name) name) := by
          simp [increment_error_count, hmem1]
        have hr : invoke_cloud false false false dbErrOk db mem name (.raises m)
            = { outcome := .httpError 500 ("Function execution failed: " ++ m),
                db := db, mem := bumpError (bumpInvocation mem name) name,
                events := [.logInvocation, .incInvocation, .execUser, .logError,
                           .incError] } := by
          simp [invoke_cloud, hf, hinc, herr]
        rw [hr]
        refine ⟨?_, 1, 2, by omega, rfl, rfl⟩
        simp [bumpError, lookupFn_mapFn_self, hmem1]
  · intro hdb
    have hf : fetch_function true true db mem name = some fd := by
      simp [fetch_function, hdb]
    have hinc : increment_invocation_count true true db mem name
        = (bumpInvocation db name, mem) := by
      simp [increment_invocation_count]
    have hdb1 : lookupFn (bumpInvocation db name) name
        = some { fd with invocation_count := fd.invocation_count + 1 } := by
      simp [bumpInvocation, lookupFn_mapFn_self, hdb]
    cases b with
    | returns r =>
        have hr : invoke_cloud true true true dbErrOk db mem name (.returns r)
            = { outcome := .success r, db := bumpInvocation db name, mem := mem,
                events := [.logInvocation, .incInvocation, .execUser] } := by
          simp [invoke_cloud, hf, hinc]
        rw [hr]
        exact ⟨by simp [hdb1], 1, 2, by omega, rfl, rfl⟩
    | raises m =>
        cases dbErrOk with
        | false =>
            have herr : increment_error_count true false (bumpInvocation db name) mem name
                = (bumpInvocation db name, mem) := by
              simp [increment_error_count]
            have hr : invoke_cloud true true true false db mem name (.raises m)
                = { outcome := .httpError 500 ("Function execution failed: " ++ m),
                    db := bumpInvocation db name, mem := mem,
                    events := [.logInvocation, .incInvocation, .execUser, .logError,
                               .incError] } := by
              simp [invoke_cloud, hf, hinc, herr]
            rw [hr]
            exact ⟨by simp [hdb1], 1, 2, by omega, rfl, rfl⟩
        | true =>
            have herr : increment_error_count true true (bumpInvocation db name) mem name
                = (bumpError (bumpInvocation db name) name, mem) := by
              simp [increment_error_count]
            have hr : invoke_cloud true true true true db mem name (.raises m)
                = { outcome := .httpError 500 ("Function execution failed: " ++ m),
                    db := bumpError (bumpInvocation db name) name, mem := mem,
                    events := [.logInvocation, .incInvocation, .execUser, .logError,
                               .incError] } := by
              simp [invoke_cloud, hf, hinc, herr]
            rw [hr]
            refine ⟨?_, 1, 2, by omega, rfl, rfl⟩
            simp [bumpError, lookupFn_mapFn_self, hdb1]

/-- C9 witness: a raising execution against the in-memory backend still leaves
`invocation_count` at 1. -/
theorem C9_witness :
    (lookupFn (invoke_cloud false false false true [] [("f", sampleFn)] "f"
        (.raises "boom")).mem "f").map (fun f => f.invocation_count) = some 1 ∧
    precedes (invoke_cloud false false false true [] [("f", sampleFn)] "f"
        (.raises "boom")).events .incInvocation .execUser := by
  have h := (C9_count_incremented_before_execution [] [("f", sampleFn)] "f" sampleFn
      (.raises "boom") true).1 rfl
  simpa [sampleFn] using h

/-- C10 witness: a record still in status `deploying`. -/
theorem C10_witness :
    invoke_local [("f", { sampleFn with status := "deploying" })] "f" (.returns (.ok "v"))
      = { outcome := .httpError 400 ("Function is not deployed yet. Status: "
            ++ ({ sampleFn with status := "deploying" } : FunctionData).status),
          store := [("f", { sampleFn with status := "deploying" })], events := [] } :=
  C10_undeployed_rejected [("f", { sampleFn with status := "deploying" })] "f"
    { sampleFn with status := "deploying" } (.returns (.ok "v")) rfl (by decide)

end Vajra
